import Mathlib

/-!
Verification development for the pref_voting repository, covering
`generate_spatial_profiles.py` and `social_welfare_function.py`.

Numpy arrays of floats are embedded over `ℚ`; a numpy 2-d array is a
`NPMatrix` (dimensions plus entry function).  Random sampling
(`np.random.multivariate_normal`) is modelled by sampler oracles passed
explicitly: each call of the sampler in the python source corresponds to
indexing the oracle at the indices the source uses.  Python `assert`
statements are embedded as `Except.error` with the source message, so the
generators return `Except`.
-/

namespace PrefVoting

/-- Shallow embedding of a numpy 2-dimensional array: its shape and an
entry function. -/
structure NPMatrix where
  rows : Nat
  cols : Nat
  entry : Nat → Nat → ℚ

/-- Embedding of `np.eye(n)`: the n-by-n identity matrix. -/
def np_eye (n : Nat) : NPMatrix :=
  ⟨n, n, fun i j => if i = j then 1 else 0⟩

/-- Embedding of `np.ones((n, m))`: an n-by-m matrix of ones. -/
def np_ones (n m : Nat) : NPMatrix :=
  ⟨n, m, fun _ _ => 1⟩

/-- Elementwise addition of numpy arrays (shapes agree at every use site in
the source). -/
def NPMatrix.add (A B : NPMatrix) : NPMatrix :=
  ⟨A.rows, A.cols, fun i j => A.entry i j + B.entry i j⟩

/-- Elementwise subtraction of numpy arrays. -/
def NPMatrix.sub (A B : NPMatrix) : NPMatrix :=
  ⟨A.rows, A.cols, fun i j => A.entry i j - B.entry i j⟩

/-- Scalar multiplication of a numpy array. -/
def NPMatrix.smul (c : ℚ) (A : NPMatrix) : NPMatrix :=
  ⟨A.rows, A.cols, fun i j => c * A.entry i j⟩

/-- Embedding of `generate_covariance(n_dimensions, std, rho)` from
`generate_spatial_profiles.py`.  The three `assert` statements become
`Except.error` with the messages of the source, checked in source order;
then `cov = (std**2) * (np.eye(n) + rho * (np.ones((n, n)) - np.eye(n)))`. -/
def generate_covariance (n_dimensions : Int) (std rho : ℚ) : Except String NPMatrix :=
  if ¬ std > 0 then .error "Standard deviation must be positive"
  else if ¬ (rho ≥ 0 ∧ rho ≤ 1) then .error "Correlation coefficient must be between 0 and 1"
  else if ¬ n_dimensions > 0 then .error "Number of dimensions must be positive"
  else
    let n := n_dimensions.toNat
    .ok (NPMatrix.smul (std ^ 2)
          ((np_eye n).add (NPMatrix.smul rho ((np_ones n n).sub (np_eye n)))))

/-- Embedding of the external `SpatialProfile` value as constructed by the
generators: the python dicts `{0..num_cands-1 → point}` and
`{0..num_voters-1 → point}` become association lists in key order. -/
structure SpatialProfile where
  cand_pos : List (Nat × List ℚ)
  voter_pos : List (Nat × List ℚ)
deriving DecidableEq

/-- Profile built by `generate_spatial_profile` for profile index `pidx`:
`SpatialProfile({c: cand_samples[pidx][c] for c in range(num_cands)},
{v: voter_samples[pidx][v] for v in range(num_voters)})`, with the sampler
oracle `sC pidx c` standing for `cand_samples[pidx][c]` and `sV pidx v` for
`voter_samples[pidx][v]`. -/
def spatialProfileAt (num_cands num_voters : Nat)
    (sC sV : Nat → Nat → List ℚ) (pidx : Nat) : SpatialProfile :=
  ⟨(List.range num_cands).map (fun c => (c, sC pidx c)),
   (List.range num_voters).map (fun v => (v, sV pidx v))⟩

/-- Embedding of `generate_spatial_profile` from
`generate_spatial_profiles.py`.  Omitted covariances default to
`np.eye(num_dims)`; the two shape `assert` statements become errors with the
source messages; `np.random.multivariate_normal(mean, cov, size=(num_profiles, k))`
is the sampler oracle, whose output point `samples[pidx][i]` is `s pidx i`;
the return is `profs[0] if num_profiles == 1 else profs`. -/
def generate_spatial_profile (num_cands num_voters num_dims : Nat)
    (cand_cov voter_cov : Option NPMatrix) (num_profiles : Nat)
    (sC sV : Nat → Nat → List ℚ) :
    Except String (SpatialProfile ⊕ List SpatialProfile) :=
  if ¬ (num_dims = (cand_cov.getD (np_eye num_dims)).rows ∧
      (cand_cov.getD (np_eye num_dims)).rows =
        (cand_cov.getD (np_eye num_dims)).cols) then
    .error "Candidate covariance matrix must be square and have the same number of dimensions as the number of dimensions specified"
  else if ¬ (num_dims = (voter_cov.getD (np_eye num_dims)).rows ∧
      (voter_cov.getD (np_eye num_dims)).rows =
        (voter_cov.getD (np_eye num_dims)).cols) then
    .error "Voter covariance matrix must be square and have the same number of dimensions as the number of dimensions specified"
  else if num_profiles = 1 then
    .ok (.inl (spatialProfileAt num_cands num_voters sC sV 0))
  else
    .ok (.inr ((List.range num_profiles).map
      (spatialProfileAt num_cands num_voters sC sV)))

/-- Cluster specification for the polarized generator: a python tuple
`(mean, covariance, count)`. -/
structure Cluster where
  mean : List ℚ
  cov : NPMatrix
  count : Nat

/-- Row `pidx` of the concatenated sample array built by the cluster loop of
`generate_spatial_profile_polarized`, starting from cluster index `k`: each
cluster contributes its `count` points `sample k pidx 0 .. sample k pidx (count-1)`
and `np.concatenate(..., axis=1)` appends them in cluster order. -/
def concatRowFrom (clusters : List Cluster)
    (sample : Nat → Nat → Nat → List ℚ) (pidx k : Nat) : List (List ℚ) :=
  match clusters with
  | [] => []
  | c :: rest =>
      ((List.range c.count).map (fun j => sample k pidx j)) ++
        concatRowFrom rest sample pidx (k + 1)

/-- Row `pidx` of the full concatenated sample array, clusters taken in the
order given. -/
def concatRow (clusters : List Cluster)
    (sample : Nat → Nat → Nat → List ℚ) (pidx : Nat) : List (List ℚ) :=
  concatRowFrom clusters sample pidx 0

/-- Total point count accumulated by the cluster loop
(`total_num_cands`, `total_num_voters`). -/
def totalCount (clusters : List Cluster) : Nat :=
  (clusters.map Cluster.count).sum

/-- Number of points contributed by the clusters before cluster `k`. -/
def countBefore (clusters : List Cluster) (k : Nat) : Nat :=
  ((clusters.take k).map Cluster.count).sum

/-- Profile built by `generate_spatial_profile_polarized` for profile index
`pidx`:
`SpatialProfile({cidx: cand_samples[pidx][cidx] for cidx in range(total_num_cands)},
{vidx: voter_samples[pidx][vidx] for vidx in range(total_num_voters)})`. -/
def polarizedProfileAt (cand_clusters voter_clusters : List Cluster)
    (sC sV : Nat → Nat → Nat → List ℚ) (pidx : Nat) : SpatialProfile :=
  ⟨(List.range (totalCount cand_clusters)).map
      (fun cidx => (cidx, (concatRow cand_clusters sC pidx).getD cidx [])),
   (List.range (totalCount voter_clusters)).map
      (fun vidx => (vidx, (concatRow voter_clusters sV pidx).getD vidx []))⟩

/-- Embedding of `generate_spatial_profile_polarized` from
`generate_spatial_profiles.py`: sample each cluster, concatenate along the
within-profile axis in cluster order, build one profile per profile index,
and return `profs[0] if num_profiles == 1 else profs`.  The sampler oracle
`s k pidx j` stands for point `j` of profile row `pidx` of the array drawn
for cluster `k`. -/
def generate_spatial_profile_polarized (cand_clusters voter_clusters : List Cluster)
    (num_profiles : Nat) (sC sV : Nat → Nat → Nat → List ℚ) :
    SpatialProfile ⊕ List SpatialProfile :=
  if num_profiles = 1 then
    .inl (polarizedProfileAt cand_clusters voter_clusters sC sV 0)
  else
    .inr ((List.range num_profiles).map
      (polarizedProfileAt cand_clusters voter_clusters sC sV))

/-- Election data as seen by the SWF wrapper: only the `candidates`
attribute is consulted. -/
structure ElectionData (γ : Type) where
  candidates : List γ

/-- Embedding of an `SWF` object from `social_welfare_function.py`.  The
field `swf` is the attribute set by `__init__`; `name` is the name
attribute; `vm` records whether the object carries a `vm` attribute (the
attribute `__call__` reads), `none` meaning absent.  `κ` is the type of the
forwarded extra keyword arguments and `List ν` the wrapped function result
type. -/
structure SWF (γ κ ν : Type) where
  swf : ElectionData γ → Option (List γ) → κ → List ν
  name : Option String
  vm : Option (ElectionData γ → Option (List γ) → κ → List ν)

/-- Embedding of `SWF.__init__(self, swf, name=None)`: stores `swf` and
`name` and runs `functools.update_wrapper(self, swf)`, which copies
metadata and the `__dict__` of the wrapped plain function; a plain function
carries no `vm` attribute, so no `vm` attribute exists after
construction. -/
def SWF.init (f : ElectionData γ → Option (List γ) → κ → List ν)
    (name : Option String) : SWF γ κ ν :=
  ⟨f, name, none⟩

/-- Embedding of `SWF.__call__(self, edata, curr_cands=None, **kwargs)`:
if `curr_cands` is not `None` and empty, or `edata.candidates` is empty,
return `[]`; otherwise evaluate `self.vm(edata, curr_cands=curr_cands, **kwargs)`,
which raises `AttributeError` when the object has no `vm` attribute. -/
def SWF.call (w : SWF γ κ ν) (edata : ElectionData γ)
    (curr_cands : Option (List γ)) (kwargs : κ) : Except String (List ν) :=
  if (curr_cands.isSome && (curr_cands.getD []).isEmpty)
      || edata.candidates.isEmpty then .ok []
  else
    match w.vm with
    | none => .error "AttributeError: SWF object has no attribute vm"
    | some f => .ok (f edata curr_cands kwargs)

/-- Embedding of `SWF.set_name(self, new_name)`: replaces the stored name,
with no validation. -/
def SWF.set_name (w : SWF γ κ ν) (new_name : Option String) : SWF γ κ ν :=
  ⟨w.swf, new_name, w.vm⟩

/-- Embedding of `SWF.__str__`: the f-string of `self.name`, which formats
`None` as the text None and a string as itself. -/
def SWF.toStr (w : SWF γ κ ν) : String :=
  match w.name with
  | none => "None"
  | some s => s

/-- Embedding of the module-level helper `isin(arr, val)` from
`social_welfare_function.py`: scan indices `0 .. arr.shape[0] - 1` in order
and return `True` at the first entry equal to `val`, else `False`. -/
def isin (arr : List ℚ) (val : ℚ) : Bool :=
  match arr with
  | [] => false
  | x :: rest => if x = val then true else isin rest val

/-- C2: for every std > 0, rho in [0,1] and n > 0, generate_covariance
returns (deterministically, being a pure function of its arguments) an
n-by-n matrix that is symmetric, has every diagonal entry std^2 and every
off-diagonal entry std^2 * rho. -/
theorem generate_covariance_valid (n : Nat) (std rho : ℚ)
    (hstd : 0 < std) (hrho0 : 0 ≤ rho) (hrho1 : rho ≤ 1) (hn : 0 < n) :
    ∃ M : NPMatrix, generate_covariance (n : Int) std rho = .ok M ∧
      M.rows = n ∧ M.cols = n ∧
      (∀ i, i < n → M.entry i i = std ^ 2) ∧
      (∀ i j, i < n → j < n → i ≠ j → M.entry i j = std ^ 2 * rho) ∧
      (∀ i j, M.entry i j = M.entry j i) := by
  have h1 : ¬ ¬ std > 0 := not_not_intro hstd
  have h2 : ¬ ¬ (rho ≥ 0 ∧ rho ≤ 1) := not_not_intro ⟨hrho0, hrho1⟩
  have h3 : ¬ ¬ (n : Int) > 0 := not_not_intro (by exact_mod_cast hn)
  refine ⟨NPMatrix.smul (std ^ 2)
      ((np_eye n).add (NPMatrix.smul rho ((np_ones n n).sub (np_eye n)))),
    ?_, ?_, ?_, ?_, ?_, ?_⟩
  · simp only [generate_covariance, if_neg h1, if_neg h2, if_neg h3,
      Int.toNat_natCast]
  · simp [NPMatrix.smul, NPMatrix.add, NPMatrix.sub, np_eye, np_ones]
  · simp [NPMatrix.smul, NPMatrix.add, NPMatrix.sub, np_eye, np_ones]
  · intro i _
    simp [NPMatrix.smul, NPMatrix.add, NPMatrix.sub, np_eye, np_ones]
  · intro i j _ _ hij
    simp only [NPMatrix.smul, NPMatrix.add, NPMatrix.sub, np_eye, np_ones,
      if_neg hij]
    ring
  · intro i j
    simp only [NPMatrix.smul, NPMatrix.add, NPMatrix.sub, np_eye, np_ones]
    by_cases hij : i = j
    · subst hij; rfl
    · rw [if_neg hij, if_neg (Ne.symm hij)]

/-- Witness for C2 at n = 2, std = 1, rho = 1/2. -/
theorem generate_covariance_valid_witness :
    (0 : ℚ) < 1 ∧ (0 : ℚ) ≤ 1 / 2 ∧ (1 / 2 : ℚ) ≤ 1 ∧ 0 < 2 ∧
    (∃ M : NPMatrix, generate_covariance ((2 : Nat) : Int) 1 (1 / 2) = .ok M ∧
      M.rows = 2 ∧ M.cols = 2 ∧
      (∀ i, i < 2 → M.entry i i = 1 ^ 2) ∧
      (∀ i j, i < 2 → j < 2 → i ≠ j → M.entry i j = 1 ^ 2 * (1 / 2)) ∧
      (∀ i j, M.entry i j = M.entry j i)) :=
  ⟨by norm_num, by norm_num, by norm_num, by norm_num,
    generate_covariance_valid 2 1 (1 / 2) (by norm_num) (by norm_num)
      (by norm_num) (by norm_num)⟩

/-- C6: for every std ≤ 0, or rho < 0, or rho > 1, or n_dimensions ≤ 0,
generate_covariance fails with a precondition-violation error (and, being a
pure function ending in Except.error, builds no matrix and performs no
sampling or clamping). -/
theorem generate_covariance_invalid (n : Int) (std rho : ℚ)
    (h : std ≤ 0 ∨ rho < 0 ∨ rho > 1 ∨ n ≤ 0) :
    ∃ msg, generate_covariance n std rho = .error msg := by
  unfold generate_covariance
  split
  · exact ⟨_, rfl⟩
  split
  · exact ⟨_, rfl⟩
  split
  · exact ⟨_, rfl⟩
  rename_i h1 h2 h3
  push_neg at h1 h2 h3
  exfalso
  rcases h with h | h | h | h
  · linarith
  · linarith [h2.1]
  · linarith [h2.2]
  · omega

/-- Witness for C6 at n = 1, std = 0, rho = 0. -/
theorem generate_covariance_invalid_witness :
    ((0 : ℚ) ≤ 0 ∨ (0 : ℚ) < 0 ∨ (0 : ℚ) > 1 ∨ (1 : Int) ≤ 0) ∧
    ∃ msg, generate_covariance 1 0 0 = .error msg :=
  ⟨Or.inl le_rfl, generate_covariance_invalid 1 0 0 (Or.inl le_rfl)⟩

/-- C1: the spec says a call with non-zero candidates and non-empty (or
omitted) curr_cands delegates to the wrapped function; the code instead
evaluates self.vm, an attribute never assigned (the constructor stores the
wrapped function as self.swf), so the call raises AttributeError.  This
theorem evaluates the embedded code at the failing input: a wrapper built
by the constructor around the function fun edata curr_cands kwargs => [0],
called with two candidates and curr_cands = None. -/
theorem swf_call_raises_attribute_error :
    (SWF.init (fun _ _ _ => [0]) (some "borda") : SWF Nat Unit Nat).call
      ⟨[0, 1]⟩ none () =
      .error "AttributeError: SWF object has no attribute vm" := rfl

/-- C4: for every wrapper (whatever function and vm attribute it holds), a
call with curr_cands supplied and empty, or with election data reporting
zero candidates, returns the empty list; the result is the same for every
stored function, so the wrapped function is not invoked. -/
theorem swf_call_empty_fast_path {γ κ ν : Type}
    (f : ElectionData γ → Option (List γ) → κ → List ν)
    (nm : Option String)
    (v : Option (ElectionData γ → Option (List γ) → κ → List ν))
    (edata : ElectionData γ) (curr_cands : Option (List γ)) (kwargs : κ)
    (h : curr_cands = some [] ∨ edata.candidates = []) :
    (SWF.mk f nm v).call edata curr_cands kwargs = .ok [] := by
  rcases h with h | h
  · subst h; simp [SWF.call]
  · simp [SWF.call, h]

/-- Witness for C4: a wrapper whose wrapped function and vm attribute both
return [7], called with curr_cands = [] on two candidates, returns []. -/
theorem swf_call_empty_fast_path_witness :
    (some ([] : List Nat) = some [] ∨ ([1, 2] : List Nat) = []) ∧
    (SWF.mk (fun _ _ _ => [7]) none (some (fun _ _ _ => [7])) :
      SWF Nat Unit Nat).call ⟨[1, 2]⟩ (some []) () = .ok [] :=
  ⟨Or.inl rfl,
    swf_call_empty_fast_path (fun _ _ _ => [7]) none (some (fun _ _ _ => [7]))
      ⟨[1, 2]⟩ (some []) () (Or.inl rfl)⟩

/-- C9: set_name stores exactly the given name with no validation, string
conversion of a wrapper yields the stored name (so after set_name "X" it is
"X"), and when the name is unset string conversion yields the text None. -/
theorem swf_set_name_str {γ κ ν : Type} (w : SWF γ κ ν)
    (nm : Option String) (s : String)
    (f : ElectionData γ → Option (List γ) → κ → List ν)
    (v : Option (ElectionData γ → Option (List γ) → κ → List ν)) :
    ((w.set_name nm).name = nm) ∧
    ((w.set_name (some s)).toStr = s) ∧
    ((SWF.mk f none v).toStr = "None") :=
  ⟨rfl, rfl, rfl⟩

/-- C10: isin arr val is true exactly when some index i < arr.length has
arr[i] = val; on the empty array it is false. -/
theorem isin_spec (arr : List ℚ) (val : ℚ) :
    (isin arr val = true ↔ ∃ i, i < arr.length ∧ arr.getD i 0 = val) ∧
    isin ([] : List ℚ) val = false := by
  refine ⟨?_, rfl⟩
  induction arr with
  | nil => simp [isin]
  | cons x rest ih =>
    simp only [isin]
    by_cases hx : x = val
    · simp only [if_pos hx, true_iff]
      exact ⟨0, Nat.succ_pos _, by simp [hx]⟩
    · rw [if_neg hx, ih]
      constructor
      · rintro ⟨i, hi, hv⟩
        exact ⟨i + 1, by simpa using hi, by simpa using hv⟩
      · rintro ⟨i, hi, hv⟩
        cases i with
        | zero => exact absurd (by simpa using hv) hx
        | succ j => exact ⟨j, by simpa using hi, by simpa using hv⟩

/-- C8: omitting cand_cov or voter_cov makes generate_spatial_profile
behave exactly as if the num_dims-by-num_dims identity matrix had been
supplied; and supplying a matrix that is not square of side num_dims makes
the call fail with a precondition-violation error whose message does not
depend on the samplers, i.e. before any sampling occurs. -/
theorem gsp_defaults_and_shape_check
    (num_cands num_voters num_dims num_profiles : Nat)
    (sC sV : Nat → Nat → List ℚ) (M : NPMatrix) (oc ov : Option NPMatrix)
    (hM : ¬ (num_dims = M.rows ∧ M.rows = M.cols)) :
    (generate_spatial_profile num_cands num_voters num_dims none none
        num_profiles sC sV =
      generate_spatial_profile num_cands num_voters num_dims
        (some (np_eye num_dims)) (some (np_eye num_dims)) num_profiles sC sV) ∧
    (∃ msg, ∀ sC' sV' : Nat → Nat → List ℚ,
      generate_spatial_profile num_cands num_voters num_dims (some M) ov
        num_profiles sC' sV' = .error msg) ∧
    (∃ msg, ∀ sC' sV' : Nat → Nat → List ℚ,
      generate_spatial_profile num_cands num_voters num_dims oc (some M)
        num_profiles sC' sV' = .error msg) := by
  refine ⟨rfl, ?_, ?_⟩
  · refine ⟨"Candidate covariance matrix must be square and have the same number of dimensions as the number of dimensions specified",
      fun sC' sV' => ?_⟩
    unfold generate_spatial_profile
    rw [if_pos (by simpa using hM)]
  · by_cases hc : ¬ (num_dims = (oc.getD (np_eye num_dims)).rows ∧
        (oc.getD (np_eye num_dims)).rows = (oc.getD (np_eye num_dims)).cols)
    · refine ⟨"Candidate covariance matrix must be square and have the same number of dimensions as the number of dimensions specified",
        fun sC' sV' => ?_⟩
      unfold generate_spatial_profile
      rw [if_pos hc]
    · refine ⟨"Voter covariance matrix must be square and have the same number of dimensions as the number of dimensions specified",
        fun sC' sV' => ?_⟩
      unfold generate_spatial_profile
      rw [if_neg hc, if_pos (by simpa using hM)]

/-- Witness for C8 with num_dims = 2 and a 1-by-1 matrix supplied. -/
theorem gsp_defaults_and_shape_check_witness :
    (¬ ((2 : Nat) = (np_eye 1).rows ∧ (np_eye 1).rows = (np_eye 1).cols)) ∧
    ((generate_spatial_profile 3 4 2 none none 1 (fun _ _ => [0, 0])
        (fun _ _ => [0, 0]) =
      generate_spatial_profile 3 4 2 (some (np_eye 2)) (some (np_eye 2)) 1
        (fun _ _ => [0, 0]) (fun _ _ => [0, 0])) ∧
    (∃ msg, ∀ sC' sV' : Nat → Nat → List ℚ,
      generate_spatial_profile 3 4 2 (some (np_eye 1)) none 1 sC' sV' =
        .error msg) ∧
    (∃ msg, ∀ sC' sV' : Nat → Nat → List ℚ,
      generate_spatial_profile 3 4 2 none (some (np_eye 1)) 1 sC' sV' =
        .error msg)) :=
  ⟨by simp [np_eye],
    gsp_defaults_and_shape_check 3 4 2 1 (fun _ _ => [0, 0])
      (fun _ _ => [0, 0]) (np_eye 1) none none (by simp [np_eye])⟩

/-- C3: for both generators, with covariance shape checks passing, a call
with num_profiles = 1 returns the single spatial profile unwrapped, and a
call with num_profiles ≠ 1 returns the list of exactly num_profiles
profiles, the profile at position pidx being the one built from draw pidx
(order matches draw order). -/
theorem return_shape_contract
    (num_cands num_voters num_dims num_profiles : Nat)
    (cand_cov voter_cov : Option NPMatrix) (sC sV : Nat → Nat → List ℚ)
    (cand_clusters voter_clusters : List Cluster)
    (pC pV : Nat → Nat → Nat → List ℚ)
    (hc : num_dims = (cand_cov.getD (np_eye num_dims)).rows ∧
      (cand_cov.getD (np_eye num_dims)).rows =
        (cand_cov.getD (np_eye num_dims)).cols)
    (hv : num_dims = (voter_cov.getD (np_eye num_dims)).rows ∧
      (voter_cov.getD (np_eye num_dims)).rows =
        (voter_cov.getD (np_eye num_dims)).cols) :
    (num_profiles = 1 →
      generate_spatial_profile num_cands num_voters num_dims cand_cov
          voter_cov num_profiles sC sV =
        .ok (.inl (spatialProfileAt num_cands num_voters sC sV 0)) ∧
      generate_spatial_profile_polarized cand_clusters voter_clusters
          num_profiles pC pV =
        .inl (polarizedProfileAt cand_clusters voter_clusters pC pV 0)) ∧
    (num_profiles ≠ 1 →
      ∃ l l₂ : List SpatialProfile,
        generate_spatial_profile num_cands num_voters num_dims cand_cov
            voter_cov num_profiles sC sV = .ok (.inr l) ∧
        l.length = num_profiles ∧
        (∀ pidx, pidx < num_profiles →
          l.getD pidx ⟨[], []⟩ =
            spatialProfileAt num_cands num_voters sC sV pidx) ∧
        generate_spatial_profile_polarized cand_clusters voter_clusters
            num_profiles pC pV = .inr l₂ ∧
        l₂.length = num_profiles ∧
        (∀ pidx, pidx < num_profiles →
          l₂.getD pidx ⟨[], []⟩ =
            polarizedProfileAt cand_clusters voter_clusters pC pV pidx)) := by
  constructor
  · intro h1
    constructor
    · unfold generate_spatial_profile
      rw [if_neg (not_not_intro hc), if_neg (not_not_intro hv), if_pos h1]
    · unfold generate_spatial_profile_polarized
      rw [if_pos h1]
  · intro h1
    refine ⟨(List.range num_profiles).map
        (spatialProfileAt num_cands num_voters sC sV),
      (List.range num_profiles).map
        (polarizedProfileAt cand_clusters voter_clusters pC pV),
      ?_, by simp, ?_, ?_, by simp, ?_⟩
    · unfold generate_spatial_profile
      rw [if_neg (not_not_intro hc), if_neg (not_not_intro hv), if_neg h1]
    · intro pidx hpidx
      rw [List.getD_eq_getElem?_getD, List.getElem?_map,
        List.getElem?_range hpidx]
      rfl
    · unfold generate_spatial_profile_polarized
      rw [if_neg h1]
    · intro pidx hpidx
      rw [List.getD_eq_getElem?_getD, List.getElem?_map,
        List.getElem?_range hpidx]
      rfl

/-- Witness for C3 at num_profiles = 4 with default covariances: the result
is a list of exactly 4 profiles. -/
theorem return_shape_contract_witness :
    ∃ l : List SpatialProfile,
      generate_spatial_profile 3 3 1 none none 4 (fun _ _ => [0])
        (fun _ _ => [0]) = .ok (.inr l) ∧ l.length = 4 := by
  obtain ⟨l, l₂, e1, e2, -, -, -, -⟩ :=
    (return_shape_contract 3 3 1 4 none none (fun _ _ => [0])
      (fun _ _ => [0]) [] [] (fun _ _ _ => []) (fun _ _ _ => [])
      (by simp [np_eye]) (by simp [np_eye])).2 (by norm_num)
  exact ⟨l, e1, e2⟩

/-- Helper: getD on a mapped range evaluates the function at the index. -/
lemma getD_range_map {α : Type} (f : Nat → α) (n o : Nat) (d : α)
    (h : o < n) : ((List.range n).map f).getD o d = f o := by
  rw [List.getD_eq_getElem?_getD, List.getElem?_map, List.getElem?_range h]
  rfl

/-- Helper: a concatenated sample row has one point per cluster point. -/
lemma concatRowFrom_length (clusters : List Cluster)
    (sample : Nat → Nat → Nat → List ℚ) (pidx : Nat) :
    ∀ b, (concatRowFrom clusters sample pidx b).length = totalCount clusters := by
  induction clusters with
  | nil => intro b; rfl
  | cons c rest ih =>
      intro b
      simp [concatRowFrom, totalCount, ih (b + 1)]

/-- Helper: within the concatenated row, the point at offset o inside the
block of cluster k is the sampler output for cluster k at offset o. -/
lemma concatRowFrom_getD (clusters : List Cluster)
    (sample : Nat → Nat → Nat → List ℚ) (pidx : Nat) :
    ∀ b k (hk : k < clusters.length) o,
      o < (clusters.get ⟨k, hk⟩).count →
      (concatRowFrom clusters sample pidx b).getD
        (countBefore clusters k + o) [] = sample (b + k) pidx o := by
  induction clusters with
  | nil => intro b k hk; exact absurd hk (by simp)
  | cons c rest ih =>
      intro b k hk o ho
      cases k with
      | zero =>
          have hc : o < c.count := by simpa using ho
          have hidx : countBefore (c :: rest) 0 + o = o := by
            simp [countBefore]
          rw [hidx]
          simp only [concatRowFrom]
          rw [List.getD_eq_getElem?_getD,
            List.getElem?_append_left (by simpa using hc),
            List.getElem?_map, List.getElem?_range hc]
          rfl
      | succ j =>
          have hj : j < rest.length := by simpa using hk
          have ho' : o < (rest.get ⟨j, hj⟩).count := by simpa using ho
          have hidx : countBefore (c :: rest) (j + 1) + o =
              c.count + (countBefore rest j + o) := by
            simp only [countBefore, List.take_succ_cons, List.map_cons,
              List.sum_cons]
            omega
          rw [hidx]
          simp only [concatRowFrom]
          rw [List.getD_eq_getElem?_getD,
            List.getElem?_append_right (by simp)]
          have hsub : c.count + (countBefore rest j + o) -
              ((List.range c.count).map (fun j => sample b pidx j)).length =
              countBefore rest j + o := by
            simp
          rw [hsub, ← List.getD_eq_getElem?_getD]
          rw [ih (b + 1) j hj o ho']
          congr 1
          omega

/-- Helper: the count of the points of the clusters before cluster k plus
an in-cluster offset is below the total count. -/
lemma countBefore_add_lt (clusters : List Cluster) :
    ∀ k (hk : k < clusters.length) o,
      o < (clusters.get ⟨k, hk⟩).count →
      countBefore clusters k + o < totalCount clusters := by
  induction clusters with
  | nil => intro k hk; exact absurd hk (by simp)
  | cons c rest ih =>
      intro k hk o ho
      cases k with
      | zero =>
          have hc : o < c.count := by simpa using ho
          simp only [countBefore, totalCount, List.take_zero, List.map_nil,
            List.sum_nil, List.map_cons, List.sum_cons]
          omega
      | succ j =>
          have hj : j < rest.length := by simpa using hk
          have ho' : o < (rest.get ⟨j, hj⟩).count := by simpa using ho
          have := ih j hj o ho'
          simp only [countBefore, totalCount, List.take_succ_cons,
            List.map_cons, List.sum_cons] at *
          omega

/-- Helper: every profile the single-population generator returns, whether
unwrapped or as a list element, is the profile built from some draw row. -/
lemma gsp_profile_eq_profileAt
    (num_cands num_voters num_dims : Nat)
    (cand_cov voter_cov : Option NPMatrix) (num_profiles : Nat)
    (sC sV : Nat → Nat → List ℚ) (p : SpatialProfile)
    (hp : generate_spatial_profile num_cands num_voters num_dims cand_cov
        voter_cov num_profiles sC sV = .ok (.inl p) ∨
      ∃ l, generate_spatial_profile num_cands num_voters num_dims cand_cov
        voter_cov num_profiles sC sV = .ok (.inr l) ∧ p ∈ l) :
    ∃ pidx, p = spatialProfileAt num_cands num_voters sC sV pidx := by
  unfold generate_spatial_profile at hp
  rcases hp with hp | ⟨l, hl, hm⟩
  · split at hp
    · exact absurd hp (by simp)
    split at hp
    · exact absurd hp (by simp)
    split at hp
    · simp only [Except.ok.injEq, Sum.inl.injEq] at hp
      exact ⟨0, hp.symm⟩
    · exact absurd hp (by simp)
  · split at hl
    · exact absurd hl (by simp)
    split at hl
    · exact absurd hl (by simp)
    split at hl
    · exact absurd hl (by simp)
    · simp only [Except.ok.injEq, Sum.inr.injEq] at hl
      subst hl
      obtain ⟨pidx, -, hpe⟩ := List.mem_map.mp hm
      exact ⟨pidx, hpe.symm⟩

/-- Helper: every profile the polarized generator returns, whether
unwrapped or as a list element, is the profile built from some draw row. -/
lemma polarized_profile_eq_profileAt
    (cand_clusters voter_clusters : List Cluster) (num_profiles : Nat)
    (sC sV : Nat → Nat → Nat → List ℚ) (p : SpatialProfile)
    (hp : generate_spatial_profile_polarized cand_clusters voter_clusters
        num_profiles sC sV = .inl p ∨
      ∃ l, generate_spatial_profile_polarized cand_clusters voter_clusters
        num_profiles sC sV = .inr l ∧ p ∈ l) :
    ∃ pidx,
      p = polarizedProfileAt cand_clusters voter_clusters sC sV pidx := by
  unfold generate_spatial_profile_polarized at hp
  rcases hp with hp | ⟨l, hl, hm⟩
  · split at hp
    · exact ⟨0, (by simpa using hp.symm)⟩
    · exact absurd hp (by simp)
  · split at hl
    · exact absurd hl (by simp)
    · simp only [Sum.inr.injEq] at hl
      subst hl
      obtain ⟨pidx, -, hpe⟩ := List.mem_map.mp hm
      exact ⟨pidx, hpe.symm⟩

/-- C7: when the shape checks pass and the sampler (per the contract of
np.random.multivariate_normal with a mean of length num_dims) produces
points of length num_dims, every profile returned by
generate_spatial_profile has a candidate mapping of exactly num_cands
entries keyed in order 0..num_cands-1 and a voter mapping of exactly
num_voters entries keyed 0..num_voters-1, every value a vector of length
num_dims. -/
theorem gsp_profile_structure
    (num_cands num_voters num_dims : Nat)
    (cand_cov voter_cov : Option NPMatrix) (num_profiles : Nat)
    (sC sV : Nat → Nat → List ℚ)
    (hdimC : ∀ pr i, (sC pr i).length = num_dims)
    (hdimV : ∀ pr i, (sV pr i).length = num_dims)
    (p : SpatialProfile)
    (hp : generate_spatial_profile num_cands num_voters num_dims cand_cov
        voter_cov num_profiles sC sV = .ok (.inl p) ∨
      ∃ l, generate_spatial_profile num_cands num_voters num_dims cand_cov
        voter_cov num_profiles sC sV = .ok (.inr l) ∧ p ∈ l) :
    p.cand_pos.length = num_cands ∧
    p.cand_pos.map Prod.fst = List.range num_cands ∧
    (∀ pr ∈ p.cand_pos, pr.2.length = num_dims) ∧
    p.voter_pos.length = num_voters ∧
    p.voter_pos.map Prod.fst = List.range num_voters ∧
    (∀ pr ∈ p.voter_pos, pr.2.length = num_dims) := by
  obtain ⟨pidx, rfl⟩ := gsp_profile_eq_profileAt num_cands num_voters
    num_dims cand_cov voter_cov num_profiles sC sV p hp
  refine ⟨by simp [spatialProfileAt], ?_, ?_, by simp [spatialProfileAt],
    ?_, ?_⟩
  · simp [spatialProfileAt, List.map_map, Function.comp_def]
  · intro pr hpr
    simp only [spatialProfileAt, List.mem_map, List.mem_range] at hpr
    obtain ⟨c, -, rfl⟩ := hpr
    exact hdimC pidx c
  · simp [spatialProfileAt, List.map_map, Function.comp_def]
  · intro pr hpr
    simp only [spatialProfileAt, List.mem_map, List.mem_range] at hpr
    obtain ⟨v, -, rfl⟩ := hpr
    exact hdimV pidx v

/-- Witness for C7 at num_cands = 5, num_voters = 10, num_dims = 2,
default covariances, a single profile, constant samplers. -/
theorem gsp_profile_structure_witness :
    (spatialProfileAt 5 10 (fun _ _ => [0, 0]) (fun _ _ => [0, 0])
        0).cand_pos.length = 5 ∧
    (spatialProfileAt 5 10 (fun _ _ => [0, 0]) (fun _ _ => [0, 0])
        0).cand_pos.map Prod.fst = List.range 5 ∧
    (∀ pr ∈ (spatialProfileAt 5 10 (fun _ _ => [0, 0])
        (fun _ _ => [0, 0]) 0).cand_pos, pr.2.length = 2) ∧
    (spatialProfileAt 5 10 (fun _ _ => [0, 0]) (fun _ _ => [0, 0])
        0).voter_pos.length = 10 ∧
    (spatialProfileAt 5 10 (fun _ _ => [0, 0]) (fun _ _ => [0, 0])
        0).voter_pos.map Prod.fst = List.range 10 ∧
    (∀ pr ∈ (spatialProfileAt 5 10 (fun _ _ => [0, 0])
        (fun _ _ => [0, 0]) 0).voter_pos, pr.2.length = 2) :=
  gsp_profile_structure 5 10 2 none none 1 (fun _ _ => [0, 0])
    (fun _ _ => [0, 0]) (fun _ _ => rfl) (fun _ _ => rfl)
    (spatialProfileAt 5 10 (fun _ _ => [0, 0]) (fun _ _ => [0, 0]) 0)
    (Or.inl rfl)

/-- C5: every profile returned by generate_spatial_profile_polarized has
exactly the sum of the cluster counts as its number of candidates (and of
voters), and cluster order determines index assignment: for each cluster k
and offset o below its count, the entry at dense index
countBefore k + o is keyed by that index and holds the sampler point o of
cluster k of one common draw row pidx. -/
theorem polarized_cluster_layout
    (cand_clusters voter_clusters : List Cluster) (num_profiles : Nat)
    (sC sV : Nat → Nat → Nat → List ℚ) (p : SpatialProfile)
    (hp : generate_spatial_profile_polarized cand_clusters voter_clusters
        num_profiles sC sV = .inl p ∨
      ∃ l, generate_spatial_profile_polarized cand_clusters voter_clusters
        num_profiles sC sV = .inr l ∧ p ∈ l) :
    p.cand_pos.length = totalCount cand_clusters ∧
    p.voter_pos.length = totalCount voter_clusters ∧
    ∃ pidx,
      (∀ k (hk : k < cand_clusters.length) o,
        o < (cand_clusters.get ⟨k, hk⟩).count →
        p.cand_pos.getD (countBefore cand_clusters k + o) (0, []) =
          (countBefore cand_clusters k + o, sC k pidx o)) ∧
      (∀ k (hk : k < voter_clusters.length) o,
        o < (voter_clusters.get ⟨k, hk⟩).count →
        p.voter_pos.getD (countBefore voter_clusters k + o) (0, []) =
          (countBefore voter_clusters k + o, sV k pidx o)) := by
  obtain ⟨pidx, rfl⟩ := polarized_profile_eq_profileAt cand_clusters
    voter_clusters num_profiles sC sV p hp
  refine ⟨by simp [polarizedProfileAt], by simp [polarizedProfileAt],
    pidx, ?_, ?_⟩
  · intro k hk o ho
    have hlt := countBefore_add_lt cand_clusters k hk o ho
    simp only [polarizedProfileAt]
    rw [getD_range_map _ _ _ _ hlt]
    have := concatRowFrom_getD cand_clusters sC pidx 0 k hk o ho
    rw [Nat.zero_add] at this
    rw [concatRow, this]
  · intro k hk o ho
    have hlt := countBefore_add_lt voter_clusters k hk o ho
    simp only [polarizedProfileAt]
    rw [getD_range_map _ _ _ _ hlt]
    have := concatRowFrom_getD voter_clusters sV pidx 0 k hk o ho
    rw [Nat.zero_add] at this
    rw [concatRow, this]

/-- Witness for C5: two candidate clusters of two points each and one
voter cluster of four points, a single profile, samplers indexed by
cluster. -/
theorem polarized_cluster_layout_witness :
    (polarizedProfileAt
        [⟨[-5], np_eye 1, 2⟩, ⟨[5], np_eye 1, 2⟩] [⟨[0], np_eye 1, 4⟩]
        (fun k _ j => [10 * k + j]) (fun _ _ j => [(j : ℚ)])
        0).cand_pos.length =
      totalCount [⟨[-5], np_eye 1, 2⟩, ⟨[5], np_eye 1, 2⟩] ∧
    (polarizedProfileAt
        [⟨[-5], np_eye 1, 2⟩, ⟨[5], np_eye 1, 2⟩] [⟨[0], np_eye 1, 4⟩]
        (fun k _ j => [10 * k + j]) (fun _ _ j => [(j : ℚ)])
        0).voter_pos.length = totalCount [⟨[0], np_eye 1, 4⟩] ∧
    ∃ pidx : Nat,
      (∀ k (hk : k < (([⟨[-5], np_eye 1, 2⟩, ⟨[5], np_eye 1, 2⟩] :
          List Cluster)).length) o,
        o < (([⟨[-5], np_eye 1, 2⟩, ⟨[5], np_eye 1, 2⟩] :
            List Cluster).get ⟨k, hk⟩).count →
        (polarizedProfileAt
            [⟨[-5], np_eye 1, 2⟩, ⟨[5], np_eye 1, 2⟩] [⟨[0], np_eye 1, 4⟩]
            (fun k _ j => [10 * k + j]) (fun _ _ j => [(j : ℚ)])
            0).cand_pos.getD
            (countBefore [⟨[-5], np_eye 1, 2⟩, ⟨[5], np_eye 1, 2⟩] k + o)
            (0, []) =
          (countBefore [⟨[-5], np_eye 1, 2⟩, ⟨[5], np_eye 1, 2⟩] k + o,
            [10 * (k : ℚ) + o])) ∧
      (∀ k (hk : k < (([⟨[0], np_eye 1, 4⟩] : List Cluster)).length) o,
        o < (([⟨[0], np_eye 1, 4⟩] : List Cluster).get ⟨k, hk⟩).count →
        (polarizedProfileAt
            [⟨[-5], np_eye 1, 2⟩, ⟨[5], np_eye 1, 2⟩] [⟨[0], np_eye 1, 4⟩]
            (fun k _ j => [10 * k + j]) (fun _ _ j => [(j : ℚ)])
            0).voter_pos.getD
            (countBefore [⟨[0], np_eye 1, 4⟩] k + o) (0, []) =
          (countBefore [⟨[0], np_eye 1, 4⟩] k + o, [(o : ℚ)])) :=
  polarized_cluster_layout
    [⟨[-5], np_eye 1, 2⟩, ⟨[5], np_eye 1, 2⟩] [⟨[0], np_eye 1, 4⟩] 1
    (fun k _ j => [10 * k + j]) (fun _ _ j => [(j : ℚ)])
    (polarizedProfileAt
      [⟨[-5], np_eye 1, 2⟩, ⟨[5], np_eye 1, 2⟩] [⟨[0], np_eye 1, 4⟩]
      (fun k _ j => [10 * k + j]) (fun _ _ j => [(j : ℚ)]) 0)
    (Or.inl rfl)

end PrefVoting
